import Mathlib

/-
Verification of the hlhv/cell client runtime: a shallow embedding of the
session controller (Leash), the data channel (Band), the HTTP exchange
adapter and the reconnect loop, together with theorems settling the
specified behavioural properties against the code.

Conventions of the embedding:
  * byte payloads are modelled as List Nat;
  * Go errors are modelled explicitly (GoErr), with io.EOF a distinguished
    value; a nil error is Option.none;
  * machine integers stay small and nonnegative in every reachable state
    modelled here, so Nat or Int arithmetic coincides with int64 semantics
    (no overflow, and all division conventions agree on nonnegative
    operands).
-/

/-- Frame kinds of the hlhv wire protocol used by the cell client
(github.com/hlhv/protocol), treated as an enumerated tag. -/
inductive FrameKind
  | iam
  | accept
  | needBand
  | httpReqHead
  | httpReqBody
  | httpReqEnd
  | httpResHead
  | httpResBody
  | httpResEnd
  | httpResWant
  deriving DecidableEq, Repr

/-- A Go error value: io.EOF is distinguished because the client code
compares errors against it; every other error is abstracted by a code. -/
inductive GoErr
  | eof
  | other (code : Nat)
  deriving DecidableEq, Repr

/-- The result of one protocol.ReadParseFrame call: a kind, a payload, and
an error value (none models a nil error; on a failed read the kind and data
fields hold the Go zero values). -/
structure ReadOutcome where
  kind : FrameKind
  data : List Nat
  err : Option GoErr
  deriving DecidableEq, Repr

/-- One update of the retry timer performed by Cell.ensure after an attempt
(the second copy of ensure in the cell package, the one keyed on elapsed
time): a worked attempt (longer than 10 seconds) resets the timer to 2;
otherwise, while the timer is below 60, it grows by integer arithmetic
retryTime = (retryTime * 3) / 2; once at least 60 it is left unchanged.
All reachable values are positive and tiny, so Int division here agrees
with Go int64 division. -/
def retryStep (worked : Bool) (retryTime : Int) : Int :=
  if worked then 2
  else if retryTime < 60 then retryTime * 3 / 2
  else retryTime

/-- The delay actually slept at iteration k (0-indexed) of Cell.ensure when
every connection attempt fails fast: the timer starts at 3 and ensure
updates it with retryStep BEFORE each time.Sleep, so the sleep of iteration
k observes the timer after k+1 updates. -/
def observedDelay : Nat → Int
  | 0 => retryStep false 3
  | k + 1 => retryStep false (observedDelay k)

/-- The control read loop of Leash.Listen, run over the sequence of results
that successive protocol.ReadParseFrame calls produce. The Go loop breaks
only when err == io.EOF and then returns that err; any other non-nil error
is merely logged, after which the frame (whose fields hold zero values on a
failed read) is still passed to handleFrame and the loop continues. The
result pairs the frames dispatched to handleFrame with the outcome: none
while the stream is unexhausted means the loop is still running (blocked in
a read); some r means the loop exited and Listen returned the error value
r (none standing for a nil Go error). -/
def listenRun : List ReadOutcome → List (FrameKind × List Nat) × Option (Option GoErr)
  | [] => ([], none)
  | r :: rest =>
    if r.err = some GoErr.eof then ([], some (some GoErr.eof))
    else
      let tail := listenRun rest
      ((r.kind, r.data) :: tail.1, tail.2)

/-- A registered data channel as the registry sweep sees it: an identity
(standing for the Go pointer) and the liveness mark. The Go field is named
open (the sweep deletes every band with open == false); it is renamed here
because open is a Lean keyword. A band whose read task has exited has
isOpen = false and is what the spec calls marked garbage. -/
structure BandRec where
  ident : Nat
  isOpen : Bool
  deriving DecidableEq, Repr

/-- Leash.cleanBands: under the bands write lock, delete from the registry
every band that is no longer open. The Go registry is a set
(map[*Band]interface with unit values); it is modelled as the list of its
members. -/
def cleanBands (bands : List BandRec) : List BandRec :=
  bands.filter (fun b => b.isOpen)

/-- The registry once the read task of every closed band has fully
terminated, its deferred cleanup having set the garbage mark. Band.Close
alone does not reach this state: Close can return before the deferred
block of listen runs, so a closed band may remain unmarked (still open)
for a while after Close returns; only the eventual termination of every
read task yields this registry. -/
def markAllGarbage (bands : List BandRec) : List BandRec :=
  bands.map (fun b => { b with isOpen := false })

/-- Leash.NewBand on the successful-spawn path: spawnBand yields a fresh
open band, the band is inserted into the registry under the write lock,
and cleanBands is then always run. -/
def newBand (bands : List BandRec) (fresh : Nat) : List BandRec :=
  cleanBands (bands ++ [⟨fresh, true⟩])

/-- Program counter of the band read task (Band.listen). read: blocked in
or about to call ReadParseFrame; check: a read returned, the loop is about
to test stopNotify and the error; signal: stopNotify was non-nil, the task
is about to send on it and break; callback: about to invoke the frame
callback; cleanup: out of the loop, the deferred block (listening = false,
isGarbage = true) has not run yet; done: the task has terminated. -/
inductive ListenPC
  | read
  | check
  | signal
  | callback
  | cleanup
  | done
  deriving DecidableEq, Repr

/-- Program counter of a task running Band.Close. start: about to test
band.listening; setChan: about to install stopNotify; closeConn: about to
close the connection; wait: blocked receiving on stopNotify; returned:
Close has returned to its caller. -/
inductive ClosePC
  | start
  | setChan
  | closeConn
  | wait
  | returned
  deriving DecidableEq, Repr

/-- Joint state of one band, its read task and one concurrent Close call.
stopNotify = true models a non-nil stopNotify channel; lastReadErr is the
error of the read most recently returned (consumed at check);
callbackCount counts callback invocations. -/
structure BandSync where
  lpc : ListenPC
  cpc : ClosePC
  listening : Bool
  isGarbage : Bool
  stopNotify : Bool
  connClosed : Bool
  lastReadErr : Option GoErr
  callbackCount : Nat
  deriving DecidableEq, Repr

/-- The interleaved atomic actions of the two tasks. readOk and readErr
finish the pending ReadParseFrame (a read may fail at any time; it can
succeed only while the connection is not closed). check runs the branch
cascade at the top of the loop body; invoke runs the callback; cleanup runs
the deferred block; closeStart, setChan and closeConn are the successive
steps of Close; rendezvous is the synchronous handoff on the unbuffered
stopNotify channel (the send in listen together with the receive in
Close). -/
inductive BandAct
  | readOk
  | readErr (e : GoErr)
  | check
  | invoke
  | cleanup
  | closeStart
  | setChan
  | closeConn
  | rendezvous
  deriving DecidableEq, Repr

/-- Small-step semantics of the band read task and Close under sequentially
consistent interleaving; an action that is not enabled leaves the state
unchanged. -/
def bandStep (s : BandSync) (a : BandAct) : BandSync :=
  match a with
  | BandAct.readOk =>
    if s.lpc = ListenPC.read ∧ s.connClosed = false then
      { s with lpc := ListenPC.check, lastReadErr := none }
    else s
  | BandAct.readErr e =>
    if s.lpc = ListenPC.read then
      { s with lpc := ListenPC.check, lastReadErr := some e }
    else s
  | BandAct.check =>
    if s.lpc = ListenPC.check then
      if s.stopNotify then { s with lpc := ListenPC.signal }
      else
        match s.lastReadErr with
        | some _ => { s with lpc := ListenPC.cleanup }
        | none => { s with lpc := ListenPC.callback }
    else s
  | BandAct.invoke =>
    if s.lpc = ListenPC.callback then
      { s with lpc := ListenPC.read, callbackCount := s.callbackCount + 1 }
    else s
  | BandAct.cleanup =>
    if s.lpc = ListenPC.cleanup then
      { s with lpc := ListenPC.done, listening := false, isGarbage := true }
    else s
  | BandAct.closeStart =>
    if s.cpc = ClosePC.start then
      if s.listening then { s with cpc := ClosePC.setChan }
      else { s with cpc := ClosePC.returned }
    else s
  | BandAct.setChan =>
    if s.cpc = ClosePC.setChan then
      { s with cpc := ClosePC.closeConn, stopNotify := true }
    else s
  | BandAct.closeConn =>
    if s.cpc = ClosePC.closeConn then
      { s with cpc := ClosePC.wait, connClosed := true }
    else s
  | BandAct.rendezvous =>
    if s.lpc = ListenPC.signal ∧ s.cpc = ClosePC.wait then
      { s with lpc := ListenPC.cleanup, cpc := ClosePC.returned }
    else s

/-- Running a sequence of interleaved actions. -/
def bandRun (s : BandSync) (acts : List BandAct) : BandSync :=
  acts.foldl bandStep s

/-- Initial joint state for a band whose read task is running (listening
was set at the top of listen) and on which Close is about to be called. -/
def bandInit : BandSync :=
  { lpc := ListenPC.read
    cpc := ClosePC.start
    listening := true
    isGarbage := false
    stopNotify := false
    connClosed := false
    lastReadErr := none
    callbackCount := 0 }

/-- An interleaving in which Close runs to completion against a read task
that observes the severed connection: Close installs stopNotify, closes the
connection, the pending read fails, the loop sees stopNotify, and the
channel rendezvous releases Close. -/
def closeRaceTrace : List BandAct :=
  [BandAct.closeStart, BandAct.setChan, BandAct.closeConn,
   BandAct.readErr (GoErr.other 0), BandAct.check, BandAct.rendezvous]

/-- An error returned by Band frame reading: a failed ReadParseFrame (which
also triggers an implicit Band.Close, not tracked by this data-flow model)
or an unexpected frame kind while streaming a request body; the latter
carries the kind, as the Go error string does. -/
inductive BandErr
  | readFail (e : GoErr)
  | unexpectedKind (k : FrameKind)
  deriving DecidableEq, Repr

/-- Band.ReadHTTPBody applied to the result of its single ReadParseFrame
call: a failed read returns (false, nil, err); a request-body frame returns
(true, data, nil); a request-end frame returns (false, data, nil); any
other kind returns (false, data, error naming the kind). -/
def readHTTPBody (r : ReadOutcome) : Bool × List Nat × Option BandErr :=
  match r.err with
  | some e => (false, [], some (BandErr.readFail e))
  | none =>
    if r.kind = FrameKind.httpReqBody then (true, r.data, none)
    else if r.kind = FrameKind.httpReqEnd then (false, r.data, none)
    else (false, r.data, some (BandErr.unexpectedKind r.kind))

/-- The loop of Band.ReadHTTPBodyFull over the stream of successive read
results, carrying the body accumulated so far. On a read result with a
non-nil error the Go code returns (data, err), where data is only what that
last ReadHTTPBody call returned, not the accumulator; otherwise it appends
data to the body and stops when getNext is false. An exhausted stream
models a read that can only fail (connection gone), which the code reports
the same way with an empty data. -/
def readHTTPBodyFullLoop : List ReadOutcome → List Nat → List Nat × Option BandErr
  | [], _acc => ([], some (BandErr.readFail GoErr.eof))
  | r :: rest, acc =>
    match readHTTPBody r with
    | (_, data, some e) => (data, some e)
    | (getNext, data, none) =>
      if getNext then readHTTPBodyFullLoop rest (acc ++ data)
      else (acc ++ data, none)

/-- Band.ReadHTTPBodyFull starts its accumulator at nil. -/
def readHTTPBodyFull (stream : List ReadOutcome) : List Nat × Option BandErr :=
  readHTTPBodyFullLoop stream []

/-- The body-request state of one HTTPRequest, together with the body-want
frames written to its band (in order, each recorded by the requested max
size). The write in AskForHTTPBody is modelled on its success path. -/
structure HTTPRequestState where
  askedForBody : Bool
  maxBodySize : Int
  sentWants : List Int
  deriving DecidableEq, Repr

/-- A freshly constructed HTTPRequest: askedForBody and maxBodySize hold
the Go zero values and no frame has been written. -/
def freshRequest : HTTPRequestState :=
  { askedForBody := false, maxBodySize := 0, sentWants := [] }

/-- HTTPRequest.SetMaxBodySize: stores the size, nothing else. -/
def setMaxBodySize (n : Int) (st : HTTPRequestState) : HTTPRequestState :=
  { st with maxBodySize := n }

/-- HTTPRequest.ensureBodyRequested, which both ReadBody and ReadBodyFull
run before touching the band: if the body was not asked for yet, a zero
maxBodySize is replaced by 8192, one want frame carrying maxBodySize is
written via AskForHTTPBody, and askedForBody is set. -/
def ensureBodyRequested (st : HTTPRequestState) : HTTPRequestState :=
  if st.askedForBody then st
  else
    let m := if st.maxBodySize = 0 then 8192 else st.maxBodySize
    { askedForBody := true, maxBodySize := m, sentWants := st.sentWants ++ [m] }

/-- An error produced during the dial/spawn handshake. strangeResponse
carries the received frame kind, as the Go error string
(server sent strange response: kind) does. -/
inductive ConnErr
  | dialFailed (e : GoErr)
  | certFailed
  | writeFailed (e : GoErr)
  | readFailed (e : GoErr)
  | strangeResponse (k : FrameKind)
  | unmarshalFailed
  deriving DecidableEq, Repr

/-- The environment of one spawnBand call: the outcomes of its dial, of the
identity-frame write, of the reply read, and of unmarshalling the accept
payload. -/
structure SpawnEnv where
  dialErr : Option GoErr
  writeErr : Option GoErr
  reply : ReadOutcome
  unmarshalOk : Bool
  deriving DecidableEq, Repr

/-- spawnBand as a function of its environment: the result (ok marks a band
successfully built, with its read task started) paired with whether an
established connection is still open when the call returns. Every failure
path of spawnBand calls conn.Close(), so only the success path leaves the
connection open. -/
def spawnBandGo (env : SpawnEnv) : Except ConnErr Unit × Bool :=
  match env.dialErr with
  | some e => (Except.error (ConnErr.dialFailed e), false)
  | none =>
    match env.writeErr with
    | some e => (Except.error (ConnErr.writeFailed e), false)
    | none =>
      match env.reply.err with
      | some e => (Except.error (ConnErr.readFailed e), false)
      | none =>
        if env.reply.kind ≠ FrameKind.accept then
          (Except.error (ConnErr.strangeResponse env.reply.kind), false)
        else if env.unmarshalOk then (Except.ok (), true)
        else (Except.error ConnErr.unmarshalFailed, false)

/-- The environment of one Leash.Dial call: whether loading the root
certificate fails (only relevant when a certificate path was supplied),
then the same stages as spawnBand. -/
structure DialEnv where
  certErr : Bool
  dialErr : Option GoErr
  writeErr : Option GoErr
  reply : ReadOutcome
  unmarshalOk : Bool
  deriving DecidableEq, Repr

/-- Leash.Dial as a function of its environment, paired with whether the
fresh connection is still open on return. Unlike spawnBand, Dial closes the
connection only on the strange-response path: a failed identity write, a
failed reply read, or a failed unmarshal returns with the connection still
open. -/
def leashDial (env : DialEnv) : Except ConnErr Unit × Bool :=
  if env.certErr then (Except.error ConnErr.certFailed, false)
  else
    match env.dialErr with
    | some e => (Except.error (ConnErr.dialFailed e), false)
    | none =>
      match env.writeErr with
      | some e => (Except.error (ConnErr.writeFailed e), true)
      | none =>
        match env.reply.err with
        | some e => (Except.error (ConnErr.readFailed e), true)
        | none =>
          if env.reply.kind ≠ FrameKind.accept then
            (Except.error (ConnErr.strangeResponse env.reply.kind), false)
          else if env.unmarshalOk then (Except.ok (), true)
          else (Except.error ConnErr.unmarshalFailed, true)

/-- Leash.handleBandFrame viewed through the frames it causes to be written
on the band: on a request-head frame it runs the registered onHTTP handler
(whose writes through the exchange adapter are the list handlerOut) and
then always calls band.writeHTTPEnd, which writes one response-end frame;
every other kind writes nothing. -/
def handleBandFrame (handlerOut : List FrameKind) (kind : FrameKind) : List FrameKind :=
  match kind with
  | FrameKind.httpReqHead => handlerOut ++ [FrameKind.httpResEnd]
  | _ => []

/-- A Go runtime panic relevant to the leash lifecycle: calling a method
through a nil interface value. -/
inductive GoPanic
  | nilDereference
  deriving DecidableEq, Repr

/-- The lifecycle state of a Leash that the Close and Stop paths read: the
connection (none models the nil net.Conn a fresh leash holds) and the retry
flag. -/
structure LeashState where
  conn : Option Unit
  retry : Bool
  deriving DecidableEq, Repr

/-- Leash.NewLeash: conn is initialized to nil and retry to true. -/
def newLeash : LeashState :=
  { conn := none, retry := true }

/-- Leash.Close: it unconditionally runs leash.conn.Close(); when conn is
nil this is a method call through a nil interface and panics. On a live
connection it closes it and then closes every band under the read lock
(the band broadcast is not tracked by this lifecycle model). -/
def leashClose (l : LeashState) : Except GoPanic LeashState :=
  match l.conn with
  | none => Except.error GoPanic.nilDereference
  | some _ => Except.ok l

/-- Leash.Stop: clears the retry flag, then calls Close. -/
def leashStop (l : LeashState) : Except GoPanic LeashState :=
  leashClose { l with retry := false }

/-- Inductive invariant of the close/listen interleaving: once Close has
returned, the read task is past all frame handling (at its deferred cleanup
block or terminated), and listening is cleared only by task termination. -/
def SyncInv (s : BandSync) : Prop :=
  (s.cpc = ClosePC.returned → s.lpc = ListenPC.cleanup ∨ s.lpc = ListenPC.done)
  ∧ (s.listening = false → s.lpc = ListenPC.done)

/- ------------------------------------------------------------------ -/
/- Theorems.                                                          -/
/- ------------------------------------------------------------------ -/

/-- Helper: the invariant holds in the initial state. -/
theorem syncInv_init : SyncInv bandInit := by
  constructor <;> intro h <;> simp [bandInit] at h

/-- Helper: the invariant is preserved by every interleaved action. -/
theorem syncInv_step (s : BandSync) (a : BandAct) (h : SyncInv s) :
    SyncInv (bandStep s a) := by
  obtain ⟨h1, h2⟩ := h
  cases a <;> unfold SyncInv bandStep <;> (repeat' split) <;>
    constructor <;> intro hx <;> simp_all

/-- Helper: the invariant holds along any run from any invariant state. -/
theorem syncInv_run (s : BandSync) (acts : List BandAct) (h : SyncInv s) :
    SyncInv (bandRun s acts) := by
  induction acts generalizing s with
  | nil => exact h
  | cons a rest ih =>
    have : bandRun s (a :: rest) = bandRun (bandStep s a) rest := by
      simp [bandRun]
    rw [this]
    exact ih (bandStep s a) (syncInv_step s a h)

/-- Helper: once Close has returned, any further action keeps Close
returned and cannot invoke the callback. -/
theorem bandStep_after_return (s : BandSync) (a : BandAct) (h : SyncInv s)
    (hr : s.cpc = ClosePC.returned) :
    (bandStep s a).cpc = ClosePC.returned
    ∧ (bandStep s a).callbackCount = s.callbackCount := by
  obtain ⟨h1, h2⟩ := h
  have hl := h1 hr
  cases a <;> unfold bandStep <;> (repeat' split) <;> constructor <;> simp_all

/-- Helper: from an invariant state in which Close has returned, no
continuation of the run ever increments the callback count. -/
theorem callbackCount_frozen_after_return (s : BandSync) (more : List BandAct)
    (h : SyncInv s) (hr : s.cpc = ClosePC.returned) :
    (bandRun s more).callbackCount = s.callbackCount := by
  induction more generalizing s with
  | nil => rfl
  | cons a rest ih =>
    have hstep := bandStep_after_return s a h hr
    have : bandRun s (a :: rest) = bandRun (bandStep s a) rest := by
      simp [bandRun]
    rw [this, ih (bandStep s a) (syncInv_step s a h) hstep.1, hstep.2]

/-- Claim C1, counterexample: the claimed first observed sleep delay of 3
seconds never occurs. Cell.ensure updates the retry timer before every
sleep, so the delay observed at the very first failed iteration is already
3 * 3 / 2 = 4; the claimed sequence 3, 4, 6, 9, ... is therefore wrong at
its first element. -/
theorem first_backoff_delay_is_four :
    observedDelay 0 = 4 ∧ observedDelay 0 ≠ 3 := by decide

/-- Claim C1 (amended): starting from an initial backoff of 3 seconds, if
every connection attempt fails fast (under 10 seconds), the delays actually
slept are 4, 6, 9, 13, 19, 28, 42, 63, 63, 63, ...: the initial 3 is never
slept because growth is applied before each sleep. Each growth step is
integer arithmetic next = current * 3 / 2, applied only while the current
value is below 60, so the value is pinned at 63 from the eighth observed
delay on. -/
theorem ensure_backoff_delays :
    (List.range 10).map observedDelay = [4, 6, 9, 13, 19, 28, 42, 63, 63, 63]
    ∧ (∀ r : Int, 0 ≤ r → r < 60 → retryStep false r = r * 3 / 2)
    ∧ (∀ r : Int, 60 ≤ r → retryStep false r = r)
    ∧ ∀ k : Nat, 7 ≤ k → observedDelay k = 63 := by
  refine ⟨by decide, ?_, ?_, ?_⟩
  · intro r _ h60
    simp [retryStep, h60]
  · intro r h
    simp [retryStep, not_lt.mpr h]
  · have base : ∀ j : Nat, observedDelay (7 + j) = 63 := by
      intro j
      induction j with
      | zero => decide
      | succ n ih =>
        have h7 : 7 + (n + 1) = (7 + n) + 1 := by omega
        rw [h7, show observedDelay ((7 + n) + 1)
              = retryStep false (observedDelay (7 + n)) from rfl, ih]
        decide
    intro k hk
    have hks : k = 7 + (k - 7) := by omega
    rw [hks]
    exact base (k - 7)

/-- Claim C1, witness: the amended theorem applied at concrete inputs
(growth at 42, saturation at 63, and a late delay). -/
theorem ensure_backoff_delays_witness :
    retryStep false 42 = 63 ∧ retryStep false 63 = 63 ∧ observedDelay 9 = 63 := by
  refine ⟨?_, ?_, ?_⟩
  · rw [ensure_backoff_delays.2.1 42 (by decide) (by decide)]; decide
  · exact ensure_backoff_delays.2.2.1 63 (by decide)
  · exact ensure_backoff_delays.2.2.2 9 (by decide)

/-- Claim C2, counterexample: on clean end-of-stream Leash.Listen returns
the io.EOF error value, not nil, and on a non-EOF read error the control
loop does not exit at all (it logs, still dispatches the zero-valued frame,
and keeps looping). -/
theorem listen_returns_eof_and_survives_errors :
    listenRun [⟨FrameKind.accept, [], some GoErr.eof⟩] = ([], some (some GoErr.eof))
    ∧ (listenRun [⟨FrameKind.accept, [], some GoErr.eof⟩]).2 ≠ some none
    ∧ listenRun [⟨FrameKind.needBand, [], some (GoErr.other 7)⟩]
        = ([(FrameKind.needBand, [])], none) := by
  decide

/-- Claim C2 (amended): the control read loop of Listen exits only on
end-of-stream, in which case Listen returns the io.EOF error value (never
nil); a non-EOF read error does not terminate the loop: the frame is still
dispatched and reading continues. -/
theorem listen_exits_only_on_eof (rs rest : List ReadOutcome) (r : ReadOutcome)
    (ret : Option GoErr) (h : (listenRun rs).2 = some ret)
    (hne : r.err ≠ some GoErr.eof) :
    ret = some GoErr.eof
    ∧ listenRun (r :: rest)
        = ((r.kind, r.data) :: (listenRun rest).1, (listenRun rest).2) := by
  constructor
  · induction rs with
    | nil => simp [listenRun] at h
    | cons a l ih =>
      by_cases ha : a.err = some GoErr.eof
      · simp [listenRun, ha] at h
        exact h.symm
      · simp [listenRun, ha] at h
        exact ih h
  · simp [listenRun, hne]

/-- Claim C2, witness: the amended theorem applied to a one-frame stream
ending in EOF and a successful read outcome. -/
theorem listen_exits_only_on_eof_witness :
    (some GoErr.eof : Option GoErr) = some GoErr.eof
    ∧ listenRun [⟨FrameKind.accept, [2], none⟩]
        = ((FrameKind.accept, [2]) :: (listenRun []).1, (listenRun []).2) :=
  listen_exits_only_on_eof [⟨FrameKind.accept, [], some GoErr.eof⟩] []
    ⟨FrameKind.accept, [2], none⟩ (some GoErr.eof) (by decide) (by decide)

/-- Claim C3, counterexample: closing a channel does not synchronously
mark it garbage. Along closeRaceTrace, Band.Close has already returned
while the deferred cleanup of the read task, which sets the mark, has not
yet run; the registry entry of such a closed band is therefore still
unmarked at the next spawn, and the sweep retains it: with one spawned
then closed channel whose mark is not yet set, the registry after the
next spawn holds the old channel alongside the new one, not exactly the
newly spawned channel. -/
theorem closed_band_survives_sweep :
    (bandRun bandInit closeRaceTrace).cpc = ClosePC.returned
    ∧ (bandRun bandInit closeRaceTrace).isGarbage = false
    ∧ newBand [⟨0, true⟩] 1 = [⟨0, true⟩, ⟨1, true⟩]
    ∧ newBand [⟨0, true⟩] 1 ≠ [⟨1, true⟩] := by
  decide

/-- Claim C3 (amended): the sweep run during every spawn removes, under
the registry write lock, exactly the channels marked garbage at that
moment. Since Close can return before the read task of the closed channel
has run its deferred cleanup, the next spawn is guaranteed to leave the
registry holding exactly the newly spawned channel only once the read task
of every closed channel has terminated and set its mark; a closed channel
whose mark is not yet set survives the sweep. -/
theorem cleanBands_removes_exactly_marked (bands : List BandRec)
    (b : BandRec) (fresh : Nat) :
    (b ∈ cleanBands bands ↔ b ∈ bands ∧ b.isOpen = true)
    ∧ newBand (markAllGarbage bands) fresh = [⟨fresh, true⟩]
    ∧ ∀ keep ∈ bands, keep.isOpen = true → keep ∈ newBand bands fresh := by
  refine ⟨?_, ?_, ?_⟩
  · simp [cleanBands, List.mem_filter]
  · induction bands with
    | nil => rfl
    | cons hd l ih =>
      simp only [markAllGarbage, List.map_cons] at ih ⊢
      simp [newBand, cleanBands] at ih ⊢
  · intro keep hmem hopen
    simp [newBand, cleanBands, List.mem_filter, hopen, hmem]

/-- Claim C3, witness: the amended theorem applied to a one-channel
registry holding a still-open band. -/
theorem cleanBands_removes_exactly_marked_witness :
    ((⟨0, true⟩ : BandRec) ∈ cleanBands [⟨0, true⟩]
      ↔ (⟨0, true⟩ : BandRec) ∈ [(⟨0, true⟩ : BandRec)]
        ∧ (⟨0, true⟩ : BandRec).isOpen = true)
    ∧ newBand (markAllGarbage [⟨0, true⟩]) 1 = [⟨1, true⟩]
    ∧ (⟨0, true⟩ : BandRec) ∈ newBand [⟨0, true⟩] 1 :=
  ⟨(cleanBands_removes_exactly_marked [⟨0, true⟩] ⟨0, true⟩ 1).1,
   (cleanBands_removes_exactly_marked [⟨0, true⟩] ⟨0, true⟩ 1).2.1,
   (cleanBands_removes_exactly_marked [⟨0, true⟩] ⟨0, true⟩ 1).2.2
     ⟨0, true⟩ (by decide) (by decide)⟩

/-- Claim C4, counterexample: there is an interleaving (closeRaceTrace) in
which Band.Close has already returned while the background read task has
not fully terminated: the task still has its deferred cleanup to run, so
listening is still true and isGarbage still false at the moment Close
returns. Close is released by the stopNotify send, which the task performs
before breaking out of the loop and before its deferred block runs. -/
theorem close_returns_before_task_exit :
    (bandRun bandInit closeRaceTrace).cpc = ClosePC.returned
    ∧ (bandRun bandInit closeRaceTrace).lpc ≠ ListenPC.done
    ∧ (bandRun bandInit closeRaceTrace).listening = true
    ∧ (bandRun bandInit closeRaceTrace).isGarbage = false := by
  decide

/-- Claim C4 (amended): for a data channel whose read task is running, by
the time Close returns the read task has irrevocably left its frame loop
(it is at its deferred cleanup or terminated), so no callback invocation
for that channel occurs after Close returns: under every continuation of
the interleaving the callback count never changes again. The task itself,
however, may not have fully terminated yet: its deferred clearing of
listening and setting of isGarbage can still run after Close returns. -/
theorem no_callback_after_close_returns (acts more : List BandAct)
    (h : (bandRun bandInit acts).cpc = ClosePC.returned) :
    ((bandRun bandInit acts).lpc = ListenPC.cleanup
      ∨ (bandRun bandInit acts).lpc = ListenPC.done)
    ∧ (bandRun (bandRun bandInit acts) more).callbackCount
        = (bandRun bandInit acts).callbackCount := by
  have hinv := syncInv_run bandInit acts syncInv_init
  exact ⟨hinv.1 h, callbackCount_frozen_after_return _ more hinv h⟩

/-- Claim C4, witness: the amended theorem applied to the concrete closing
interleaving, continued by attempts to read and invoke the callback. -/
theorem no_callback_after_close_returns_witness :
    ((bandRun bandInit closeRaceTrace).lpc = ListenPC.cleanup
      ∨ (bandRun bandInit closeRaceTrace).lpc = ListenPC.done)
    ∧ (bandRun (bandRun bandInit closeRaceTrace)
          [BandAct.readOk, BandAct.check, BandAct.invoke]).callbackCount
        = (bandRun bandInit closeRaceTrace).callbackCount :=
  no_callback_after_close_returns closeRaceTrace
    [BandAct.readOk, BandAct.check, BandAct.invoke] (by decide)

/-- Claim C5, counterexample: when an error interrupts the body stream,
ReadHTTPBodyFull does not return the accumulated partial body. Over a body
chunk "ab" followed by a frame of unexpected kind with payload "zz" it
returns the bytes "zz" (the data of the failing read alone), which is
neither the accumulated "ab" nor "ab" ++ "zz". -/
theorem readBodyFull_discards_accumulated_on_error :
    readHTTPBodyFull
        [⟨FrameKind.httpReqBody, [97, 98], none⟩,
         ⟨FrameKind.httpResHead, [122, 122], none⟩]
      = ([122, 122], some (BandErr.unexpectedKind FrameKind.httpResHead))
    ∧ [122, 122] ≠ [97, 98]
    ∧ [122, 122] ≠ [97, 98, 122, 122] := by
  decide

/-- Claim C5 (amended): ReadHTTPBodyFull concatenates, in arrival order,
the payloads read up to and including the first frame yielding
more = false, stopping there; over chunks "abcd" and "ef" followed by an
end frame it returns the six bytes "abcdef" with no error. On an error,
however, it returns the error alongside only the data of the erroring
ReadHTTPBody call, discarding the body accumulated so far. -/
theorem readBodyFull_concatenates (chunks : List (List Nat))
    (tail acc : List Nat) (r : ReadOutcome) (rest : List ReadOutcome)
    (e : BandErr) (he : (readHTTPBody r).2.2 = some e) :
    readHTTPBodyFullLoop
        (chunks.map (fun d => ⟨FrameKind.httpReqBody, d, none⟩)
          ++ [⟨FrameKind.httpReqEnd, tail, none⟩]) acc
      = (acc ++ chunks.flatten ++ tail, none)
    ∧ readHTTPBodyFull
        [⟨FrameKind.httpReqBody, [97, 98, 99, 100], none⟩,
         ⟨FrameKind.httpReqBody, [101, 102], none⟩,
         ⟨FrameKind.httpReqEnd, [], none⟩]
      = ([97, 98, 99, 100, 101, 102], none)
    ∧ readHTTPBodyFullLoop (r :: rest) acc = ((readHTTPBody r).2.1, some e) := by
  refine ⟨?_, by decide, ?_⟩
  · induction chunks generalizing acc with
    | nil => simp [readHTTPBodyFullLoop, readHTTPBody]
    | cons c cs ih =>
      simp [readHTTPBodyFullLoop, readHTTPBody, ih, List.append_assoc]
  · rcases hres : readHTTPBody r with ⟨g, d, oe⟩
    rw [hres] at he
    simp only at he
    subst he
    simp [readHTTPBodyFullLoop, hres]

/-- Claim C5, witness: the amended theorem applied to one chunk, an end
frame carrying trailing data, and an erroring read of unexpected kind. -/
theorem readBodyFull_concatenates_witness :
    readHTTPBodyFullLoop
        ([[97]].map (fun d => ⟨FrameKind.httpReqBody, d, none⟩)
          ++ [⟨FrameKind.httpReqEnd, [5], none⟩]) []
      = ([] ++ [[97]].flatten ++ [5], none)
    ∧ readHTTPBodyFull
        [⟨FrameKind.httpReqBody, [97, 98, 99, 100], none⟩,
         ⟨FrameKind.httpReqBody, [101, 102], none⟩,
         ⟨FrameKind.httpReqEnd, [], none⟩]
      = ([97, 98, 99, 100, 101, 102], none)
    ∧ readHTTPBodyFullLoop [⟨FrameKind.httpResEnd, [9], none⟩] []
        = ((readHTTPBody ⟨FrameKind.httpResEnd, [9], none⟩).2.1,
           some (BandErr.unexpectedKind FrameKind.httpResEnd)) :=
  readBodyFull_concatenates [[97]] [5] [] ⟨FrameKind.httpResEnd, [9], none⟩ []
    (BandErr.unexpectedKind FrameKind.httpResEnd) (by decide)

/-- Helper: after any first body read, askedForBody is set. -/
theorem ensureBodyRequested_sets_asked (st : HTTPRequestState) :
    (ensureBodyRequested st).askedForBody = true := by
  by_cases h : st.askedForBody <;> simp [ensureBodyRequested, h]

/-- Claim C6: SetMaxBodySize n called before the first body read makes the
single body-want frame of the exchange request max size n (for a nonzero
n); calling it after the first body read sends no further want frame, the
want frame having been sent at the previously effective size; and with the
size unset (zero), the first body read requests the default 8192. -/
theorem setMaxBodySize_want_frames (n m : Int) (st : HTTPRequestState)
    (hn : n ≠ 0) :
    (ensureBodyRequested (setMaxBodySize n freshRequest)).sentWants = [n]
    ∧ (ensureBodyRequested (setMaxBodySize m (ensureBodyRequested st))).sentWants
        = (ensureBodyRequested st).sentWants
    ∧ (ensureBodyRequested freshRequest).sentWants = [8192] := by
  refine ⟨?_, ?_, by decide⟩
  · simp [ensureBodyRequested, setMaxBodySize, freshRequest, hn]
  · have h := ensureBodyRequested_sets_asked st
    conv_lhs => rw [ensureBodyRequested]
    simp [setMaxBodySize, h]

/-- Claim C6, witness: the theorem applied with size 2048 before the first
read and a later SetMaxBodySize 1 after it, on a fresh exchange. -/
theorem setMaxBodySize_want_frames_witness :
    (ensureBodyRequested (setMaxBodySize 2048 freshRequest)).sentWants = [2048]
    ∧ (ensureBodyRequested
          (setMaxBodySize 1 (ensureBodyRequested freshRequest))).sentWants
        = (ensureBodyRequested freshRequest).sentWants
    ∧ (ensureBodyRequested freshRequest).sentWants = [8192] :=
  setMaxBodySize_want_frames 2048 1 freshRequest (by decide)

/-- Claim C7: whenever the reply frame read during the control-connection
Dial or during a data-channel spawn has a kind other than Accept, the call
fails with an error carrying the received kind and the underlying
connection is closed on return. -/
theorem strange_response_fatal (k : FrameKind) (d : List Nat) (u1 u2 : Bool)
    (hk : k ≠ FrameKind.accept) :
    spawnBandGo ⟨none, none, ⟨k, d, none⟩, u1⟩
      = (Except.error (ConnErr.strangeResponse k), false)
    ∧ leashDial ⟨false, none, none, ⟨k, d, none⟩, u2⟩
      = (Except.error (ConnErr.strangeResponse k), false) := by
  constructor <;> simp [spawnBandGo, leashDial, hk]

/-- Claim C7, witness: the theorem applied to a reply of kind NeedBand. -/
theorem strange_response_fatal_witness :
    spawnBandGo ⟨none, none, ⟨FrameKind.needBand, [], none⟩, true⟩
      = (Except.error (ConnErr.strangeResponse FrameKind.needBand), false)
    ∧ leashDial ⟨false, none, none, ⟨FrameKind.needBand, [], none⟩, true⟩
      = (Except.error (ConnErr.strangeResponse FrameKind.needBand), false) :=
  strange_response_fatal FrameKind.needBand [] true true (by decide)

/-- Claim C8: for every inbound request-head frame, once the registered
handler returns control to handleBandFrame, the channel layer writes
exactly one response-end frame, even when the handler wrote nothing. The
frames a handler can write on the band during its run are those of the
exchange adapter: response-head frames (WriteHead), response-body frames
(WriteBody) and the body-want frame a first body read emits
(ReadBody/ReadBodyFull through ensureBodyRequested and AskForHTTPBody);
writeHTTPEnd itself is unexported and called only by handleBandFrame, so
no handler write is a response-end frame. -/
theorem implicit_end_frame (handlerOut : List FrameKind)
    (h : ∀ k ∈ handlerOut,
      k = FrameKind.httpResHead ∨ k = FrameKind.httpResBody
        ∨ k = FrameKind.httpResWant) :
    handleBandFrame handlerOut FrameKind.httpReqHead
      = handlerOut ++ [FrameKind.httpResEnd]
    ∧ (handleBandFrame handlerOut FrameKind.httpReqHead).count
        FrameKind.httpResEnd = 1 := by
  refine ⟨rfl, ?_⟩
  have hz : handlerOut.count FrameKind.httpResEnd = 0 := by
    rw [List.count_eq_zero]
    intro hm
    rcases h _ hm with h1 | h1 | h1 <;> exact absurd h1 (by decide)
  simp [handleBandFrame, List.count_append, hz]

/-- Claim C8, witness: the theorem applied once to a handler that wrote no
body at all, and once to a handler that read the request body (emitting a
body-want frame) before writing head and body: in both runs exactly one
end frame is sent by the channel layer. -/
theorem implicit_end_frame_witness :
    (handleBandFrame [] FrameKind.httpReqHead = [] ++ [FrameKind.httpResEnd]
      ∧ (handleBandFrame [] FrameKind.httpReqHead).count FrameKind.httpResEnd
          = 1)
    ∧ handleBandFrame
          [FrameKind.httpResWant, FrameKind.httpResHead, FrameKind.httpResBody]
          FrameKind.httpReqHead
        = [FrameKind.httpResWant, FrameKind.httpResHead,
           FrameKind.httpResBody] ++ [FrameKind.httpResEnd]
    ∧ (handleBandFrame
          [FrameKind.httpResWant, FrameKind.httpResHead, FrameKind.httpResBody]
          FrameKind.httpReqHead).count FrameKind.httpResEnd = 1 :=
  ⟨implicit_end_frame [] (by simp),
   (implicit_end_frame
      [FrameKind.httpResWant, FrameKind.httpResHead, FrameKind.httpResBody]
      (by intro k hk; fin_cases hk <;> simp)).1,
   (implicit_end_frame
      [FrameKind.httpResWant, FrameKind.httpResHead, FrameKind.httpResBody]
      (by intro k hk; fin_cases hk <;> simp)).2⟩

/-- Claim C9: Close on a band whose read task is not running (listening is
false) is a no-op: the call moves in one atomic step from its entry test to
returned, without passing through its blocking receive, without closing the
connection or installing stopNotify, and without modifying any of the
channel fields. -/
theorem close_noop_when_not_listening (s : BandSync)
    (hc : s.cpc = ClosePC.start) (hl : s.listening = false) :
    bandStep s BandAct.closeStart = { s with cpc := ClosePC.returned }
    ∧ (bandStep s BandAct.closeStart).connClosed = s.connClosed
    ∧ (bandStep s BandAct.closeStart).stopNotify = s.stopNotify
    ∧ (bandStep s BandAct.closeStart).listening = s.listening
    ∧ (bandStep s BandAct.closeStart).isGarbage = s.isGarbage := by
  have h : bandStep s BandAct.closeStart = { s with cpc := ClosePC.returned } := by
    simp [bandStep, hc, hl]
  refine ⟨h, ?_, ?_, ?_, ?_⟩ <;> rw [h]

/-- Claim C9, witness: the theorem applied to a non-listening band. -/
theorem close_noop_when_not_listening_witness :
    bandStep ⟨ListenPC.done, ClosePC.start, false, true, false, false, none, 0⟩
        BandAct.closeStart
      = { (⟨ListenPC.done, ClosePC.start, false, true, false, false, none, 0⟩
            : BandSync) with cpc := ClosePC.returned }
    ∧ (bandStep ⟨ListenPC.done, ClosePC.start, false, true, false, false, none, 0⟩
        BandAct.closeStart).connClosed
      = (⟨ListenPC.done, ClosePC.start, false, true, false, false, none, 0⟩
          : BandSync).connClosed
    ∧ (bandStep ⟨ListenPC.done, ClosePC.start, false, true, false, false, none, 0⟩
        BandAct.closeStart).stopNotify
      = (⟨ListenPC.done, ClosePC.start, false, true, false, false, none, 0⟩
          : BandSync).stopNotify
    ∧ (bandStep ⟨ListenPC.done, ClosePC.start, false, true, false, false, none, 0⟩
        BandAct.closeStart).listening
      = (⟨ListenPC.done, ClosePC.start, false, true, false, false, none, 0⟩
          : BandSync).listening
    ∧ (bandStep ⟨ListenPC.done, ClosePC.start, false, true, false, false, none, 0⟩
        BandAct.closeStart).isGarbage
      = (⟨ListenPC.done, ClosePC.start, false, true, false, false, none, 0⟩
          : BandSync).isGarbage :=
  close_noop_when_not_listening
    ⟨ListenPC.done, ClosePC.start, false, true, false, false, none, 0⟩
    (by decide) (by decide)

/-- Claim C10: NewLeash initializes the connection to nil and Close calls
conn.Close() unconditionally, so Close on a leash that has never completed
a Dial dereferences a nil interface and panics, as does Stop, which calls
Close; Close before a successful Dial is not a safe no-op. -/
theorem close_on_fresh_leash_panics :
    leashClose newLeash = Except.error GoPanic.nilDereference
    ∧ leashStop newLeash = Except.error GoPanic.nilDereference :=
  ⟨rfl, rfl⟩
